import Mathlib

/-!
Verification of the document summarization backend (two Flask entry points,
`sum.py` and `app.py`).  Strings are modelled as `List Char`; Python string
primitives (`strip`, `split`, `lower`, slicing, `in`, `endswith`) are given
executable models below, and each request handler is translated into a pure
function parametrised by oracles for the extraction libraries and the remote
LLM gateway.
-/

namespace Summ

/-- Convert a Lean string literal to the `List Char` representation used
throughout this development. -/
def lc (s : String) : List Char :=
  s.toList

/-- Decimal rendering of a natural number, as used when a Python f-string
interpolates an `int` (for example `word_count`). -/
def natL (n : Nat) : List Char :=
  (toString n).toList

/-- Characters stripped by Python `str.strip()` (ASCII whitespace). -/
def isPySpace (c : Char) : Bool :=
  c = ' ' || c = '\t' || c = '\n' || c = '\r' || c = '\x0b' || c = '\x0c'

/-- Left part of Python `str.strip()`: drop leading whitespace. -/
def stripLeft (s : List Char) : List Char :=
  s.dropWhile isPySpace

/-- Right part of Python `str.strip()`: drop trailing whitespace. -/
def stripRight (s : List Char) : List Char :=
  (s.reverse.dropWhile isPySpace).reverse

/-- Model of Python `str.strip()`. -/
def pyStrip (s : List Char) : List Char :=
  stripRight (stripLeft s)

/-- Model of Python `str.lower()` (ASCII case folding suffices for the
filenames and extensions handled here). -/
def pyLower (s : List Char) : List Char :=
  s.map Char.toLower

/-- Boolean test that `p` is an initial segment of `s` (Python
`str.startswith`, used below to specify `str.split` and `in`). -/
def startsL : List Char → List Char → Bool
  | [], _ => true
  | _ :: _, [] => false
  | a :: p, b :: s => a == b && startsL p s

/-- Model of the Python `in` operator on strings: `sep` occurs somewhere
inside `s`. -/
def containsSeq (s sep : List Char) : Bool :=
  startsL sep s ||
    match s with
    | [] => false
    | _ :: rest => containsSeq rest sep

/-- `sep` occurs inside `s` (propositional form of the Python `in`
operator). -/
def OccursIn (sep s : List Char) : Prop :=
  ∃ u v, s = u ++ sep ++ v

/-- Model of Python `str.split(sep)` for a non-empty separator: scan left to
right, cutting at each non-overlapping occurrence of `sep`.  On an empty
separator the first branch is never taken (Python raises `ValueError` there;
the handlers only ever split on the fixed non-empty sentinels). -/
def pySplit (sep : List Char) : List Char → List (List Char)
  | [] => [[]]
  | c :: rest =>
    if sep ≠ [] ∧ startsL sep (c :: rest) = true then
      [] :: pySplit sep (rest.drop (sep.length - 1))
    else
      let r := pySplit sep rest
      (c :: r.headI) :: r.tail
  termination_by s => s.length
  decreasing_by
    · simp only [List.length_drop, List.length_cons]
      omega
    · simp only [List.length_cons]
      omega

/-- Model of the Python slice `text[:n]` for `n ≥ 0`: the truncation the
handlers apply to extracted text before embedding it in a prompt
(sum.py lines 153, 286, 426; app.py lines 98, 126, 155). -/
def truncateText (t : List Char) (n : Nat) : List Char :=
  t.take n

/-- The `---CHAPTER---` sentinel of the combined prompt (app.py). -/
def chapterSep : List Char :=
  lc "---CHAPTER---"

/-- The `---SUMMARY---` sentinel of the combined prompt (app.py). -/
def summarySep : List Char :=
  lc "---SUMMARY---"

/-- The `---NOTES---` sentinel of the combined prompt (app.py). -/
def notesSep : List Char :=
  lc "---NOTES---"

/-- The exact sentence the combined prompt asks the model to emit when the
requested chapter is absent (app.py lines 167 and 201). -/
def notFoundSentence : List Char :=
  lc "Chapter not found in the document."

/-- JSON response envelope produced by a handler.  Fields that a given
endpoint does not emit are left at their empty defaults; for an uncaught
exception in `app.py` the framework produces a plain 500 error page, which is
modelled as status 500 with the exception text in `error`. -/
structure HttpResponse where
  status : Nat
  success : Bool
  error : List Char
  chapter : List Char
  summary : List Char
  notes : List Char
deriving DecidableEq

/-- An uploaded file: its declared filename plus, for each of the three
extractor paths, the outcome the corresponding extraction routine would have
on this file (`.ok text` for a normal return, `.error msg` for a raised
exception).  The extractors themselves call into black-box parsing libraries,
so their outcomes are per-request oracles. -/
structure FileUpload where
  filename : List Char
  pdfResult : Except (List Char) (List Char)
  docxResult : Except (List Char) (List Char)
  txtResult : Except (List Char) (List Char)

/-- Result of running a handler: the HTTP response together with the list of
user prompts sent to the LLM gateway, in order (so `prompts.length` is the
number of gateway calls the request made). -/
structure SumResult where
  resp : HttpResponse
  prompts : List (List Char)

/-- Boolean success test for an `Except` outcome. -/
def isOkE (r : Except (List Char) (List Char)) : Bool :=
  match r with
  | .ok _ => true
  | .error _ => false

/-- The page-concatenation loop of `extract_text_from_pdf` in app.py
(lines 48-53): append each page whose extracted text is non-empty, followed
by a newline. -/
def appConcatPages (ps : List (List Char)) : List Char :=
  ps.foldl (fun acc p => if p ≠ [] then acc ++ p ++ ['\n'] else acc) []

/-- Outcome of app.py `extract_text_from_pdf`: the returned text or raised
exception, whether the temporary file was unlinked before leaving the
function, and how many times the OCR fallback ran. -/
structure PdfExtractOutcome where
  result : Except (List Char) (List Char)
  tmpDeleted : Bool
  ocrCalls : Nat

/-- Model of app.py `extract_text_from_pdf` (lines 43-59).  `pagesR` is the
outcome of opening the document and extracting every page with the PDF
library (an exception anywhere in that region propagates); `ocrR` is the
outcome of `extract_text_with_ocr` on the same temporary file.  The
`os.unlink(tmp_path)` call is the last statement of the function and is not
inside any `try`/`finally`, so it only runs when both preceding steps
return normally. -/
def appExtractTextFromPdf (pagesR : Except (List Char) (List (List Char)))
    (ocrR : Except (List Char) (List Char)) : PdfExtractOutcome :=
  match pagesR with
  | .error e => ⟨.error e, false, 0⟩
  | .ok ps =>
    let text := appConcatPages ps
    if (pyStrip text).length < 200 then
      match ocrR with
      | .error e => ⟨.error e, false, 1⟩
      | .ok t => ⟨.ok t, true, 1⟩
    else ⟨.ok text, true, 0⟩

/-- Model of sum.py `extract_text_from_txt` (lines 60-70): decode the file
bytes as UTF-8; on `UnicodeDecodeError`, seek back and decode the same bytes
as Latin-1; if that also raises, raise the unsupported-encoding message.
`utf8D` and `latin1D` are the two decoders (`none` models a decode error),
`bs` the file bytes; the second component counts Latin-1 attempts. -/
def sumExtractTextFromTxt (utf8D latin1D : List Nat → Option (List Char))
    (bs : List Nat) : Except (List Char) (List Char) × Nat :=
  match utf8D bs with
  | some t => (.ok t, 0)
  | none =>
    match latin1D bs with
    | some t => (.ok t, 1)
    | none => (.error (lc "Could not decode text file. Unsupported encoding."), 1)

/-- Truncation applied by sum.py `/summarize` before prompt construction
(lines 152-153): 20000 characters when a chapter filter is supplied,
8000 otherwise. -/
def sumSummarizeTextToUse (text ch : List Char) : List Char :=
  truncateText text (if ch ≠ [] then 20000 else 8000)

/-- Truncation applied by sum.py `/create-notes` before prompt construction
(lines 285-286). -/
def sumNotesTextToUse (text ch : List Char) : List Char :=
  truncateText text (if ch ≠ [] then 20000 else 8000)

/-- Truncation applied by sum.py `/summarize-and-notes` before prompt
construction (line 426). -/
def sumBothTextForProcessing (text ch : List Char) : List Char :=
  truncateText text (if ch ≠ [] then 20000 else 8000)

/-- Truncation applied by every app.py endpoint to the extracted text
(`get_text_from_file()[:8000]`, lines 98, 126, 155). -/
def appTextCap (t : List Char) : List Char :=
  truncateText t 8000

/-- Summary prompt of sum.py `/summarize` (lines 155-187). -/
def sumSummaryPrompt (text ch : List Char) (wc : Nat) : List Char :=
  if ch ≠ [] then
    lc "You are an expert at creating educational summaries.\n\nText from document:\n" ++
      text ++
      lc "\n\nTask: Create a summary focusing on \"" ++ ch ++
      lc "\"\n\nInstructions:\n- Read through the entire text carefully\n- Look for sections, headings, or content related to \"" ++
      ch ++
      lc "\"\n- Write a clear, concise summary in approximately " ++ natL wc ++
      lc " words\n- If \"" ++ ch ++
      lc "\" content is found, summarize ONLY that section\n- If \"" ++ ch ++
      lc "\" is not found, state that clearly and suggest what content is available\n- Cover key concepts, main ideas, and important points\n- Use simple, easy-to-understand language\n\nGenerate the summary now:"
  else
    lc "You are an expert at creating educational summaries.\n\nText to summarize:\n" ++
      text ++
      lc "\n\nTask: Create a comprehensive summary\n\nRequirements:\n- Write a clear, concise summary in approximately " ++
      natL wc ++
      lc " words\n- Cover all key concepts and main ideas\n- Use simple, easy-to-understand language\n- Structure: Introduction → Main Points → Conclusion\n\nGenerate the summary now:"

/-- Notes prompt of sum.py `/create-notes` (lines 288-329). -/
def sumNotesPrompt (text ch : List Char) : List Char :=
  if ch ≠ [] then
    lc "You are an expert note-maker for students.\n\nText from document:\n" ++
      text ++
      lc "\n\nTask: Create detailed, topic-wise notes focusing on \"" ++ ch ++
      lc "\"\n\nInstructions:\n- Read through the text carefully\n- Look for sections, headings, or content related to \"" ++
      ch ++
      lc "\"\n- If \"" ++ ch ++
      lc "\" content is found, create notes ONLY for that section\n- If \"" ++ ch ++
      lc "\" is not found, state that clearly\n- For each topic, provide:\n   - Clear heading\n   - Key points (bullet points)\n   - Important definitions\n   - Examples if available\n- Format as structured notes using markdown\n- Make it student-friendly\n\nGenerate topic-wise notes now:"
  else
    lc "You are an expert note-maker for students.\n\nText:\n" ++
      text ++
      lc "\n\nTask: Create detailed, topic-wise notes from this content\n\nRequirements:\n1. Identify all major topics/concepts\n2. For each topic, provide:\n   - Clear heading\n   - Key points (bullet points)\n   - Important definitions\n   - Examples if available\n3. Format as structured notes\n4. Use markdown formatting\n5. Make it student-friendly\n\nGenerate topic-wise notes now:"

/-- Summary prompt of sum.py `/summarize-and-notes` (lines 431-439). -/
def sumBothSummaryPrompt (text ch : List Char) (wc : Nat) : List Char :=
  if ch ≠ [] then
    lc "Text from document: " ++ text ++
      lc "\n\nCreate a " ++ natL wc ++
      lc "-word summary focusing on \"" ++ ch ++
      lc "\".\nRead the text and identify content related to \"" ++ ch ++
      lc "\", then summarize the key concepts clearly."
  else
    lc "Text: " ++ text ++
      lc "\n\nCreate a " ++ natL wc ++
      lc "-word summary covering all key concepts clearly and concisely."

/-- Notes prompt of sum.py `/summarize-and-notes` (lines 456-465). -/
def sumBothNotesPrompt (text ch : List Char) : List Char :=
  if ch ≠ [] then
    lc "Text from document: " ++ text ++
      lc "\n\nCreate detailed topic-wise notes focusing on \"" ++ ch ++
      lc "\".\nIdentify content related to \"" ++ ch ++
      lc "\" and format as topics with bullet points, definitions, and key concepts."
  else
    lc "Text: " ++ text ++
      lc "\n\nCreate detailed topic-wise notes.\nFormat: Topics with bullet points, definitions, and key concepts."

/-- Prompt of app.py `/summarize` (lines 102-106). -/
def appSummaryPrompt (text ch : List Char) (wc : Nat) : List Char :=
  lc "\n" ++ text ++ lc "\n\nCreate a " ++ natL wc ++ lc "-word summary " ++
    (if ch ≠ [] then lc "focusing on " ++ ch else []) ++ lc ".\n"

/-- Prompt of app.py `/create-notes` (lines 129-134). -/
def appNotesPrompt (text ch : List Char) : List Char :=
  lc "\n" ++ text ++ lc "\n\nCreate structured topic-wise notes " ++
    (if ch ≠ [] then lc "for " ++ ch else []) ++
    lc ".\nUse headings and bullet points.\n"

/-- Combined prompt of app.py `/summarize-and-notes` (lines 162-183),
containing the chapter-not-found instruction and the three-sentinel OUTPUT
FORMAT template. -/
def appCombinedPrompt (ch : List Char) (wc : Nat) (text : List Char) : List Char :=
  lc "\nYou are an academic assistant. You are given a textbook content.\n\nTASK:\n1. Search the text and extract ONLY the content for chapter \"" ++
    ch ++
    lc "\".\n2. If the chapter is not found, reply exactly: \"Chapter not found in the document.\"\n3. For the chapter found, provide:\n   - The chapter title\n   - A concise summary (" ++
    natL wc ++
    lc " words)\n   - Structured topic-wise notes using headings and bullet points\n\nOUTPUT FORMAT:\n---CHAPTER---\n<chapter title or number>\n---SUMMARY---\n<summary here>\n---NOTES---\n<notes here>\n\nText:\n" ++
    text ++ lc "\n"

/-- Shared input block of the three sum.py handlers (lines 102-141, 252-278,
393-418): prefer the `file` upload, dispatching on the lower-cased filename
suffix (unsupported suffixes and extraction exceptions yield a 400 response);
fall back to the `text` form field only when no file was sent; 400 when
neither is present.  The auxiliary human-readable `message` fields of sum.py
are not modelled. -/
def sumGetText (fileF : Option FileUpload) (textF : Option (List Char)) :
    Except HttpResponse (List Char) :=
  match fileF with
  | some f =>
    let name := pyLower f.filename
    let pick : Except (List Char) (List Char) → Except HttpResponse (List Char) :=
      fun r =>
        match r with
        | .ok t => .ok t
        | .error e => .error ⟨400, false, e, [], [], []⟩
    if List.isSuffixOf (lc ".pdf") name then pick f.pdfResult
    else if List.isSuffixOf (lc ".docx") name then pick f.docxResult
    else if List.isSuffixOf (lc ".txt") name then pick f.txtResult
    else .error ⟨400, false, lc "Unsupported file format", [], [], []⟩
  | none =>
    match textF with
    | some t => .ok t
    | none => .error ⟨400, false, lc "No input provided", [], [], []⟩

/-- sum.py `/summarize` (lines 81-232).  `apiKey` records whether
`GROQ_API_KEY` is configured; `gw` is the LLM gateway oracle mapping the user
prompt to the generated text.  The `word_count` echo field of the success
body is not modelled. -/
def sumSummarize (apiKey : Bool) (fileF : Option FileUpload)
    (textF : Option (List Char)) (ch : List Char) (wc : Nat)
    (gw : List Char → List Char) : SumResult :=
  if apiKey = false then ⟨⟨500, false, lc "API key not configured", [], [], []⟩, []⟩
  else
    match sumGetText fileF textF with
    | .error r => ⟨r, []⟩
    | .ok text =>
      if pyStrip text = [] then ⟨⟨400, false, lc "Empty content", [], [], []⟩, []⟩
      else
        let textToUse := sumSummarizeTextToUse text ch
        let prompt := sumSummaryPrompt textToUse ch wc
        let summary := pyStrip (gw prompt)
        ⟨⟨200, true, [], (if ch ≠ [] then ch else lc "Full document"), summary, []⟩,
          [prompt]⟩

/-- sum.py `/create-notes` (lines 234-372). -/
def sumCreateNotes (apiKey : Bool) (fileF : Option FileUpload)
    (textF : Option (List Char)) (ch : List Char)
    (gw : List Char → List Char) : SumResult :=
  if apiKey = false then ⟨⟨500, false, lc "API key not configured", [], [], []⟩, []⟩
  else
    match sumGetText fileF textF with
    | .error r => ⟨r, []⟩
    | .ok text =>
      if pyStrip text = [] then ⟨⟨400, false, lc "Empty content", [], [], []⟩, []⟩
      else
        let textToUse := sumNotesTextToUse text ch
        let prompt := sumNotesPrompt textToUse ch
        let notes := pyStrip (gw prompt)
        ⟨⟨200, true, [], (if ch ≠ [] then ch else lc "Full document"), [], notes⟩,
          [prompt]⟩

/-- sum.py `/summarize-and-notes` (lines 374-497), the two-call variant: one
gateway call for the summary prompt, an independent second call for the notes
prompt.  The `summary_word_count` echo field is not modelled. -/
def sumSummarizeAndNotes (apiKey : Bool) (fileF : Option FileUpload)
    (textF : Option (List Char)) (ch : List Char) (wc : Nat)
    (gw : List Char → List Char) : SumResult :=
  if apiKey = false then ⟨⟨500, false, lc "API key not configured", [], [], []⟩, []⟩
  else
    match sumGetText fileF textF with
    | .error r => ⟨r, []⟩
    | .ok text =>
      if pyStrip text = [] then ⟨⟨400, false, lc "Empty content", [], [], []⟩, []⟩
      else
        let tfp := sumBothTextForProcessing text ch
        let sp := sumBothSummaryPrompt tfp ch wc
        let summary := pyStrip (gw sp)
        let np := sumBothNotesPrompt tfp ch
        let notes := pyStrip (gw np)
        ⟨⟨200, true, [], (if ch ≠ [] then ch else lc "Full document"), summary, notes⟩,
          [sp, np]⟩

/-- app.py `get_text_from_file` (lines 78-92): requires a `file` upload and
dispatches on the lower-cased filename suffix; a missing file or an
unrecognised suffix raises a plain `Exception` (modelled as `.error`). -/
def appGetTextFromFile (fileF : Option FileUpload) : Except (List Char) (List Char) :=
  match fileF with
  | none => .error (lc "No file uploaded")
  | some f =>
    let name := pyLower f.filename
    if List.isSuffixOf (lc ".pdf") name then f.pdfResult
    else if List.isSuffixOf (lc ".docx") name then f.docxResult
    else if List.isSuffixOf (lc ".txt") name then f.txtResult
    else .error (lc "Unsupported file type")

/-- app.py `/summarize` (lines 96-120).  The handler has no `try`/`except`,
so an exception raised during extraction escapes to the framework, which
answers with a plain HTTP 500 (modelled as status 500 carrying the exception
text). -/
def appSummarize (fileF : Option FileUpload) (ch : List Char) (wc : Nat)
    (gw : List Char → List Char) : SumResult :=
  match appGetTextFromFile fileF with
  | .error e => ⟨⟨500, false, e, [], [], []⟩, []⟩
  | .ok t0 =>
    let text := appTextCap t0
    let prompt := appSummaryPrompt text ch wc
    let summary := pyStrip (gw prompt)
    ⟨⟨200, true, [], [], summary, []⟩, [prompt]⟩

/-- app.py `/create-notes` (lines 124-148); like `/summarize`, extraction
exceptions escape to the framework as HTTP 500. -/
def appCreateNotes (fileF : Option FileUpload) (ch : List Char)
    (gw : List Char → List Char) : SumResult :=
  match appGetTextFromFile fileF with
  | .error e => ⟨⟨500, false, e, [], [], []⟩, []⟩
  | .ok t0 =>
    let text := appTextCap t0
    let prompt := appNotesPrompt text ch
    let notes := pyStrip (gw prompt)
    ⟨⟨200, true, [], [], [], notes⟩, [prompt]⟩

/-- Sentinel-splitting step of app.py `/summarize-and-notes`
(lines 197-209): when all three sentinels are present, cut the stripped
response at the first occurrence of each sentinel via `str.split`; otherwise
fall back to treating the whole response as the summary with empty title and
notes.  Returns `(chapter_title, summary, notes)`. -/
def appCombinedParse (content : List Char) : List Char × List Char × List Char :=
  if containsSeq content chapterSep && containsSeq content summarySep &&
      containsSeq content notesSep then
    ((pyStrip ((pySplit summarySep ((pySplit chapterSep content).getD 1 [])).getD 0 [])),
      pyStrip ((pySplit notesSep ((pySplit summarySep content).getD 1 [])).getD 0 []),
      pyStrip ((pySplit notesSep content).getD 1 []))
  else
    ([], content, [])

/-- Response-construction step of app.py `/summarize-and-notes`
(lines 195-216) applied to the stripped gateway output: a response containing
the chapter-not-found sentence yields a 404 failure, anything else a 200
success built from `appCombinedParse`. -/
def appCombinedRespond (content : List Char) : HttpResponse :=
  if containsSeq content notFoundSentence then
    ⟨404, false, lc "Chapter not found in the document", [], [], []⟩
  else
    let p := appCombinedParse content
    ⟨200, true, [], p.1, p.2.1, p.2.2⟩

/-- app.py `/summarize-and-notes` (lines 152-219), the combined-prompt
variant: extraction and chapter check inside a `try`/`except` that converts
any raised exception into a 500 JSON failure; one gateway call; then the
not-found check and sentinel parse on the stripped response. -/
def appSummarizeAndNotes (fileF : Option FileUpload) (ch : List Char) (wc : Nat)
    (gw : List Char → List Char) : SumResult :=
  match appGetTextFromFile fileF with
  | .error e => ⟨⟨500, false, e, [], [], []⟩, []⟩
  | .ok t0 =>
    if ch = [] then ⟨⟨400, false, lc "Chapter is required", [], [], []⟩, []⟩
    else
      let text := appTextCap t0
      let prompt := appCombinedPrompt ch wc text
      let content := pyStrip (gw prompt)
      ⟨appCombinedRespond content, [prompt]⟩

/-- Formatting of a `(title, summary, notes)` triple into the combined
OUTPUT FORMAT template that app.py lines 173-179 instruct the model to emit:
each sentinel on its own line, each segment on the following line(s). -/
def fmtCombined (t s n : List Char) : List Char :=
  lc "---CHAPTER---\n" ++ t ++ lc "\n---SUMMARY---\n" ++ s ++ lc "\n---NOTES---\n" ++ n

theorem startsL_iff (p s : List Char) : startsL p s = true ↔ ∃ v, s = p ++ v := by
  induction p generalizing s with
  | nil =>
    simp [startsL]
  | cons a p ih =>
    cases s with
    | nil => simp [startsL]
    | cons b s =>
      simp only [startsL, Bool.and_eq_true, beq_iff_eq, ih, List.cons_append]
      constructor
      · rintro ⟨rfl, v, rfl⟩
        exact ⟨v, rfl⟩
      · rintro ⟨v, h⟩
        injection h with h1 h2
        exact ⟨h1.symm, v, h2⟩

theorem containsSeq_iff (s sep : List Char) : containsSeq s sep = true ↔ OccursIn sep s := by
  induction s with
  | nil =>
    simp only [containsSeq, Bool.or_eq_true, startsL_iff, OccursIn]
    constructor
    · rintro (⟨v, hv⟩ | h)
      · rcases List.append_eq_nil.mp hv.symm with ⟨h1, h2⟩
        exact ⟨[], [], by simp [h1]⟩
      · cases h
    · rintro ⟨u, v, h⟩
      rcases List.append_eq_nil.mp h.symm with ⟨h1, h2⟩
      rcases List.append_eq_nil.mp h1 with ⟨h3, h4⟩
      exact Or.inl ⟨v, by simp [h4, h2]⟩
  | cons c r ih =>
    simp only [containsSeq, Bool.or_eq_true, startsL_iff, ih]
    constructor
    · rintro (⟨v, hv⟩ | ⟨u, v, hv⟩)
      · exact ⟨[], v, by simpa using hv⟩
      · exact ⟨c :: u, v, by simp [hv]⟩
    · rintro ⟨u, v, hv⟩
      cases u with
      | nil => exact Or.inl ⟨v, by simpa using hv⟩
      | cons c0 u2 =>
        injection hv with h1 h2
        exact Or.inr ⟨u2, v, h2⟩

theorem containsSeq_false {s sep : List Char} (h : containsSeq s sep = false) :
    ¬ OccursIn sep s :=
  fun hocc => by simp [(containsSeq_iff s sep).mpr hocc] at h

theorem notOccNil {sep : List Char} (hne : sep ≠ []) : ¬ OccursIn sep [] := by
  rintro ⟨u, v, h⟩
  rcases List.append_eq_nil.mp h.symm with ⟨h1, _⟩
  rcases List.append_eq_nil.mp h1 with ⟨_, h3⟩
  exact hne h3

theorem startsThrough (p : List Char) (c : Char) :
    ∀ x y v, x ++ c :: y = p ++ v → c ∉ p → ∃ w, x = p ++ w := by
  induction p with
  | nil =>
    intro x y v _ _
    exact ⟨x, rfl⟩
  | cons a p ih =>
    intro x y v h hc
    cases x with
    | nil =>
      rw [List.nil_append, List.cons_append] at h
      injection h with h1 _
      exact absurd (h1 ▸ List.mem_cons_self a p) hc
    | cons b x2 =>
      rw [List.cons_append, List.cons_append] at h
      injection h with h1 h2
      rcases ih x2 y v h2 (fun hm => hc (List.mem_cons_of_mem a hm)) with ⟨w, hw⟩
      exact ⟨w, by rw [List.cons_append, h1, hw]⟩

theorem occSplitAt (sep : List Char) (c : Char) :
    ∀ a b, OccursIn sep (a ++ c :: b) → c ∉ sep →
      OccursIn sep a ∨ OccursIn sep b := by
  intro a
  induction a with
  | nil =>
    rintro b ⟨u, v, h⟩ hc
    rw [List.nil_append] at h
    cases u with
    | nil =>
      rw [List.nil_append] at h
      cases sep with
      | nil => exact Or.inl ⟨[], [], rfl⟩
      | cons s0 s2 =>
        rw [List.cons_append] at h
        injection h with h1 _
        exact absurd (h1 ▸ List.mem_cons_self s0 s2) hc
    | cons c0 u2 =>
      rw [List.cons_append] at h
      injection h with _ h2
      exact Or.inr ⟨u2, v, h2⟩
  | cons d a2 ih =>
    rintro b ⟨u, v, h⟩ hc
    cases u with
    | nil =>
      rw [List.nil_append] at h
      cases sep with
      | nil => exact Or.inl ⟨[], d :: a2, by simp⟩
      | cons s0 s2 =>
        rw [List.cons_append, List.cons_append] at h
        injection h with h1 h2
        have hc2 : c ∉ s2 := fun hm => hc (List.mem_cons_of_mem s0 hm)
        rcases startsThrough s2 c a2 b v h2 hc2 with ⟨w, hw⟩
        exact Or.inl ⟨[], w, by rw [List.nil_append, List.cons_append, h1, hw]⟩
    | cons d0 u2 =>
      rw [List.cons_append, List.cons_append, List.cons_append] at h
      injection h with h1 h2
      rcases ih b ⟨u2, v, h2⟩ hc with (⟨u3, v3, h3⟩ | hr)
      · exact Or.inl ⟨d :: u3, v3, by rw [h3]; simp⟩
      · exact Or.inr hr

theorem notOccBlock {sep : List Char} {c : Char} {x y : List Char}
    (hc : c ∉ sep) (hx : ¬ OccursIn sep x) (hy : ¬ OccursIn sep y) :
    ¬ OccursIn sep (x ++ c :: y) :=
  fun h => (occSplitAt sep c x y h hc).elim hx hy

theorem pySplit_nil (sep : List Char) : pySplit sep [] = [[]] := by
  simp only [pySplit]

theorem pySplit_cons_neg {sep : List Char} {c : Char} {rest : List Char}
    (h : ¬ (sep ≠ [] ∧ startsL sep (c :: rest) = true)) :
    pySplit sep (c :: rest) =
      (c :: (pySplit sep rest).headI) :: (pySplit sep rest).tail := by
  rw [pySplit]
  rw [if_neg h]

theorem pySplit_sep_head {sep : List Char} (hne : sep ≠ []) (v : List Char) :
    pySplit sep (sep ++ v) = [] :: pySplit sep v := by
  cases sep with
  | nil => exact absurd rfl hne
  | cons a t =>
    have hs : startsL (a :: t) ((a :: t) ++ v) = true :=
      (startsL_iff _ _).mpr ⟨v, rfl⟩
    rw [List.cons_append]
    rw [pySplit]
    rw [if_pos ⟨hne, by simpa using hs⟩]
    congr 1
    congr 1
    simp [List.drop_left]

theorem pySplit_no_occ {sep s : List Char} (h : ¬ OccursIn sep s) :
    pySplit sep s = [s] := by
  induction s with
  | nil => exact pySplit_nil sep
  | cons c r ih =>
    have hst : startsL sep (c :: r) ≠ true := by
      intro hs
      rcases (startsL_iff _ _).mp hs with ⟨v, hv⟩
      exact h ⟨[], v, by simpa using hv⟩
    have hocc : ¬ OccursIn sep r := by
      rintro ⟨u, v, hv⟩
      exact h ⟨c :: u, v, by simp [hv]⟩
    rw [pySplit_cons_neg (fun hand => hst hand.2), ih hocc]
    rfl

theorem pySplit_boundary {sep : List Char} (hne : sep ≠ []) {c : Char}
    (hc : c ∉ sep) :
    ∀ A B, ¬ OccursIn sep A →
      pySplit sep (A ++ c :: (sep ++ B)) = (A ++ [c]) :: pySplit sep B := by
  intro A
  induction A with
  | nil =>
    intro B _
    have hst : startsL sep (c :: (sep ++ B)) ≠ true := by
      intro hs
      rcases (startsL_iff _ _).mp hs with ⟨v, hv⟩
      cases sep with
      | nil => exact hne rfl
      | cons s0 s2 =>
        rw [List.cons_append] at hv
        injection hv with h1 _
        exact hc (by rw [h1]; exact List.mem_cons_self s0 s2)
    rw [List.nil_append, pySplit_cons_neg (fun hand => hst hand.2),
      pySplit_sep_head hne B]
    rfl
  | cons d A2 ih =>
    intro B hA
    have hA2 : ¬ OccursIn sep A2 := by
      rintro ⟨u, v, hv⟩
      exact hA ⟨d :: u, v, by simp [hv]⟩
    have hst : startsL sep (d :: (A2 ++ c :: (sep ++ B))) ≠ true := by
      intro hs
      rcases (startsL_iff _ _).mp hs with ⟨v, hv⟩
      rcases startsThrough sep c (d :: A2) (sep ++ B) v (by simpa using hv) hc with
        ⟨w, hw⟩
      exact hA ⟨[], w, by simpa using hw⟩
    rw [List.cons_append, pySplit_cons_neg (fun hand => hst hand.2), ih B hA2]
    rfl

theorem pyStrip_cons_ws {c : Char} (hc : isPySpace c = true) (s : List Char) :
    pyStrip (c :: s) = pyStrip s := by
  unfold pyStrip stripLeft
  rw [List.dropWhile_cons, if_pos hc]

theorem stripRight_append_ws {c : Char} (hc : isPySpace c = true) (x : List Char) :
    stripRight (x ++ [c]) = stripRight x := by
  unfold stripRight
  rw [List.reverse_append]
  simp only [List.reverse_cons, List.reverse_nil, List.nil_append, List.singleton_append]
  rw [List.dropWhile_cons, if_pos hc]

theorem pyStrip_append_ws {c : Char} (hc : isPySpace c = true) :
    ∀ s, pyStrip (s ++ [c]) = pyStrip s := by
  intro s
  induction s with
  | nil =>
    unfold pyStrip stripLeft
    rw [List.nil_append, List.dropWhile_cons, if_pos hc]
  | cons a s ih =>
    by_cases ha : isPySpace a = true
    · rw [List.cons_append, pyStrip_cons_ws ha, pyStrip_cons_ws ha, ih]
    · have h1 : pyStrip (a :: (s ++ [c])) = stripRight (a :: (s ++ [c])) := by
        unfold pyStrip stripLeft
        rw [List.dropWhile_cons, if_neg ha]
      have h2 : pyStrip (a :: s) = stripRight (a :: s) := by
        unfold pyStrip stripLeft
        rw [List.dropWhile_cons, if_neg ha]
      rw [List.cons_append, h1, h2]
      exact stripRight_append_ws hc (a :: s)

theorem dropWhile_length_le (p : Char → Bool) (l : List Char) :
    (l.dropWhile p).length ≤ l.length := by
  induction l with
  | nil => simp
  | cons a l ih =>
    rw [List.dropWhile_cons]
    by_cases h : p a = true
    · rw [if_pos h]
      exact Nat.le_succ_of_le ih
    · rw [if_neg h]

theorem pyStrip_length_le (s : List Char) : (pyStrip s).length ≤ s.length := by
  unfold pyStrip stripRight stripLeft
  have h1 := dropWhile_length_le isPySpace ((s.dropWhile isPySpace).reverse)
  have h2 := dropWhile_length_le isPySpace s
  simp only [List.length_reverse] at h1 ⊢
  omega

theorem fmt_decomp (t s n : List Char) :
    fmtCombined t s n =
      chapterSep ++ '\n' ::
        (t ++ '\n' :: (summarySep ++ '\n' :: (s ++ '\n' :: (notesSep ++ '\n' :: n)))) := by
  have h1 : lc "---CHAPTER---\n" = chapterSep ++ ['\n'] := rfl
  have h2 : lc "\n---SUMMARY---\n" = ['\n'] ++ summarySep ++ ['\n'] := rfl
  have h3 : lc "\n---NOTES---\n" = ['\n'] ++ notesSep ++ ['\n'] := rfl
  unfold fmtCombined
  rw [h1, h2, h3]
  simp [List.append_assoc]

/-- C2: for every `(title, summary, notes)` triple in which no segment
contains any of the three sentinel strings, formatting the triple into the
combined OUTPUT FORMAT template and then applying the combined-mode sentinel
parsing of app.py lines 204-207 recovers exactly the original triple, with
surrounding whitespace trimmed from each segment. -/
theorem combined_template_roundtrip (t s n : List Char)
    (ht1 : containsSeq t chapterSep = false) (ht2 : containsSeq t summarySep = false)
    (ht3 : containsSeq t notesSep = false)
    (hs1 : containsSeq s chapterSep = false) (hs2 : containsSeq s summarySep = false)
    (hs3 : containsSeq s notesSep = false)
    (hn1 : containsSeq n chapterSep = false) (hn2 : containsSeq n summarySep = false)
    (hn3 : containsSeq n notesSep = false) :
    appCombinedParse (fmtCombined t s n) = (pyStrip t, pyStrip s, pyStrip n) := by
  have hCHne : chapterSep ≠ [] := by decide
  have hSUne : summarySep ≠ [] := by decide
  have hNOne : notesSep ≠ [] := by decide
  have hcCH : '\n' ∉ chapterSep := by decide
  have hcSU : '\n' ∉ summarySep := by decide
  have hcNO : '\n' ∉ notesSep := by decide
  have hCHinSU : ¬ OccursIn chapterSep summarySep := containsSeq_false (by decide)
  have hCHinNO : ¬ OccursIn chapterSep notesSep := containsSeq_false (by decide)
  have hSUinCH : ¬ OccursIn summarySep chapterSep := containsSeq_false (by decide)
  have hSUinNO : ¬ OccursIn summarySep notesSep := containsSeq_false (by decide)
  have hNOinCH : ¬ OccursIn notesSep chapterSep := containsSeq_false (by decide)
  have hNOinSU : ¬ OccursIn notesSep summarySep := containsSeq_false (by decide)
  have hnl : isPySpace '\n' = true := by decide
  have htCH := containsSeq_false ht1
  have htSU := containsSeq_false ht2
  have htNO := containsSeq_false ht3
  have hsCH := containsSeq_false hs1
  have hsSU := containsSeq_false hs2
  have hsNO := containsSeq_false hs3
  have hnCH := containsSeq_false hn1
  have hnSU := containsSeq_false hn2
  have hnNO := containsSeq_false hn3
  have hfmt := fmt_decomp t s n
  -- Non-occurrence of the CHAPTER sentinel in everything after it
  have hT5CH : ¬ OccursIn chapterSep (notesSep ++ '\n' :: n) :=
    @notOccBlock chapterSep '\n' notesSep n hcCH hCHinNO hnCH
  have hT4CH : ¬ OccursIn chapterSep (s ++ '\n' :: (notesSep ++ '\n' :: n)) :=
    @notOccBlock chapterSep '\n' s _ hcCH hsCH hT5CH
  have hT3CH : ¬ OccursIn chapterSep
      (summarySep ++ '\n' :: (s ++ '\n' :: (notesSep ++ '\n' :: n))) :=
    @notOccBlock chapterSep '\n' summarySep _ hcCH hCHinSU hT4CH
  have hT2CH : ¬ OccursIn chapterSep
      (t ++ '\n' :: (summarySep ++ '\n' :: (s ++ '\n' :: (notesSep ++ '\n' :: n)))) :=
    @notOccBlock chapterSep '\n' t _ hcCH htCH hT3CH
  have hrest1CH : ¬ OccursIn chapterSep
      ('\n' :: (t ++ '\n' :: (summarySep ++ '\n' :: (s ++ '\n' :: (notesSep ++ '\n' :: n))))) :=
    @notOccBlock chapterSep '\n' [] _ hcCH (notOccNil hCHne) hT2CH
  -- Non-occurrence of the SUMMARY sentinel away from its own position
  have hT5SU : ¬ OccursIn summarySep (notesSep ++ '\n' :: n) :=
    @notOccBlock summarySep '\n' notesSep n hcSU hSUinNO hnSU
  have hT4SU : ¬ OccursIn summarySep (s ++ '\n' :: (notesSep ++ '\n' :: n)) :=
    @notOccBlock summarySep '\n' s _ hcSU hsSU hT5SU
  have hB1SU : ¬ OccursIn summarySep ('\n' :: (s ++ '\n' :: (notesSep ++ '\n' :: n))) :=
    @notOccBlock summarySep '\n' [] _ hcSU (notOccNil hSUne) hT4SU
  have hheadSU : ¬ OccursIn summarySep ('\n' :: t) :=
    @notOccBlock summarySep '\n' [] t hcSU (notOccNil hSUne) htSU
  have hA2SU : ¬ OccursIn summarySep (chapterSep ++ '\n' :: t) :=
    @notOccBlock summarySep '\n' chapterSep t hcSU hSUinCH htSU
  -- Non-occurrence of the NOTES sentinel away from its own position
  have hheadNO : ¬ OccursIn notesSep ('\n' :: s) :=
    @notOccBlock notesSep '\n' [] s hcNO (notOccNil hNOne) hsNO
  have htailNO : ¬ OccursIn notesSep ('\n' :: n) :=
    @notOccBlock notesSep '\n' [] n hcNO (notOccNil hNOne) hnNO
  have hYinNO : ¬ OccursIn notesSep (summarySep ++ '\n' :: s) :=
    @notOccBlock notesSep '\n' summarySep s hcNO hNOinSU hsNO
  have hYNO : ¬ OccursIn notesSep (t ++ '\n' :: (summarySep ++ '\n' :: s)) :=
    @notOccBlock notesSep '\n' t _ hcNO htNO hYinNO
  have hA3NO : ¬ OccursIn notesSep
      (chapterSep ++ '\n' :: (t ++ '\n' :: (summarySep ++ '\n' :: s))) :=
    @notOccBlock notesSep '\n' chapterSep _ hcNO hNOinCH hYNO
  -- Component 1: chapter title
  have c1a : pySplit chapterSep (fmtCombined t s n) =
      [] :: pySplit chapterSep
        ('\n' :: (t ++ '\n' :: (summarySep ++ '\n' :: (s ++ '\n' :: (notesSep ++ '\n' :: n))))) := by
    rw [hfmt]
    exact pySplit_sep_head hCHne _
  have c1b : pySplit chapterSep
      ('\n' :: (t ++ '\n' :: (summarySep ++ '\n' :: (s ++ '\n' :: (notesSep ++ '\n' :: n))))) =
      ['\n' :: (t ++ '\n' :: (summarySep ++ '\n' :: (s ++ '\n' :: (notesSep ++ '\n' :: n))))] :=
    pySplit_no_occ hrest1CH
  have c1c : (pySplit chapterSep (fmtCombined t s n)).getD 1 [] =
      '\n' :: (t ++ '\n' :: (summarySep ++ '\n' :: (s ++ '\n' :: (notesSep ++ '\n' :: n)))) := by
    rw [c1a, c1b, List.getD_cons_succ, List.getD_cons_zero]
  have c1d : pySplit summarySep
      ('\n' :: (t ++ '\n' :: (summarySep ++ '\n' :: (s ++ '\n' :: (notesSep ++ '\n' :: n))))) =
      (('\n' :: t) ++ ['\n']) ::
        pySplit summarySep ('\n' :: (s ++ '\n' :: (notesSep ++ '\n' :: n))) :=
    @pySplit_boundary summarySep hSUne '\n' hcSU ('\n' :: t)
      ('\n' :: (s ++ '\n' :: (notesSep ++ '\n' :: n))) hheadSU
  have c1e : pyStrip (('\n' :: t) ++ ['\n']) = pyStrip t := by
    have e1 : ('\n' :: t) ++ ['\n'] = '\n' :: (t ++ ['\n']) := rfl
    rw [e1, pyStrip_cons_ws hnl, pyStrip_append_ws hnl]
  -- Component 2: summary
  have e2 : fmtCombined t s n =
      (chapterSep ++ '\n' :: t) ++ '\n' ::
        (summarySep ++ '\n' :: (s ++ '\n' :: (notesSep ++ '\n' :: n))) := by
    rw [hfmt]
    simp [List.append_assoc]
  have c2a : pySplit summarySep (fmtCombined t s n) =
      ((chapterSep ++ '\n' :: t) ++ ['\n']) ::
        pySplit summarySep ('\n' :: (s ++ '\n' :: (notesSep ++ '\n' :: n))) := by
    rw [e2]
    exact @pySplit_boundary summarySep hSUne '\n' hcSU (chapterSep ++ '\n' :: t)
      ('\n' :: (s ++ '\n' :: (notesSep ++ '\n' :: n))) hA2SU
  have c2b : pySplit summarySep ('\n' :: (s ++ '\n' :: (notesSep ++ '\n' :: n))) =
      ['\n' :: (s ++ '\n' :: (notesSep ++ '\n' :: n))] :=
    pySplit_no_occ hB1SU
  have c2c : (pySplit summarySep (fmtCombined t s n)).getD 1 [] =
      '\n' :: (s ++ '\n' :: (notesSep ++ '\n' :: n)) := by
    rw [c2a, c2b, List.getD_cons_succ, List.getD_cons_zero]
  have c2d : pySplit notesSep ('\n' :: (s ++ '\n' :: (notesSep ++ '\n' :: n))) =
      (('\n' :: s) ++ ['\n']) :: pySplit notesSep ('\n' :: n) :=
    @pySplit_boundary notesSep hNOne '\n' hcNO ('\n' :: s) ('\n' :: n) hheadNO
  have c2e : pyStrip (('\n' :: s) ++ ['\n']) = pyStrip s := by
    have e1 : ('\n' :: s) ++ ['\n'] = '\n' :: (s ++ ['\n']) := rfl
    rw [e1, pyStrip_cons_ws hnl, pyStrip_append_ws hnl]
  -- Component 3: notes
  have e3 : fmtCombined t s n =
      (chapterSep ++ '\n' :: (t ++ '\n' :: (summarySep ++ '\n' :: s))) ++ '\n' ::
        (notesSep ++ '\n' :: n) := by
    rw [hfmt]
    simp [List.append_assoc]
  have c3a : pySplit notesSep (fmtCombined t s n) =
      ((chapterSep ++ '\n' :: (t ++ '\n' :: (summarySep ++ '\n' :: s))) ++ ['\n']) ::
        pySplit notesSep ('\n' :: n) := by
    rw [e3]
    exact @pySplit_boundary notesSep hNOne '\n' hcNO
      (chapterSep ++ '\n' :: (t ++ '\n' :: (summarySep ++ '\n' :: s))) ('\n' :: n) hA3NO
  have c3b : pySplit notesSep ('\n' :: n) = ['\n' :: n] :=
    pySplit_no_occ htailNO
  have c3c : (pySplit notesSep (fmtCombined t s n)).getD 1 [] = '\n' :: n := by
    rw [c3a, c3b, List.getD_cons_succ, List.getD_cons_zero]
  -- Guard: all three sentinels occur in the formatted string
  have g1 : containsSeq (fmtCombined t s n) chapterSep = true :=
    (containsSeq_iff _ _).mpr
      ⟨[], '\n' :: (t ++ '\n' :: (summarySep ++ '\n' :: (s ++ '\n' :: (notesSep ++ '\n' :: n)))),
        by rw [hfmt, List.nil_append]⟩
  have g2 : containsSeq (fmtCombined t s n) summarySep = true :=
    (containsSeq_iff _ _).mpr
      ⟨(chapterSep ++ '\n' :: t) ++ ['\n'],
        '\n' :: (s ++ '\n' :: (notesSep ++ '\n' :: n)),
        by rw [e2]; simp [List.append_assoc]⟩
  have g3 : containsSeq (fmtCombined t s n) notesSep = true :=
    (containsSeq_iff _ _).mpr
      ⟨(chapterSep ++ '\n' :: (t ++ '\n' :: (summarySep ++ '\n' :: s))) ++ ['\n'],
        '\n' :: n,
        by rw [e3]; simp [List.append_assoc]⟩
  have hcond : (containsSeq (fmtCombined t s n) chapterSep &&
      containsSeq (fmtCombined t s n) summarySep &&
      containsSeq (fmtCombined t s n) notesSep) = true := by
    simp [g1, g2, g3]
  unfold appCombinedParse
  rw [if_pos hcond, c1c, c2c, c3c, c1d, c2d, List.getD_cons_zero, List.getD_cons_zero,
    c1e, c2e]
  have e4 : pyStrip ('\n' :: n) = pyStrip n := pyStrip_cons_ws hnl n
  rw [e4]

/-- C1: the truncation applied to extracted text before it is sent
downstream is prefix-stable: for every text and every cap `n`, the result is
an initial segment of the text (never a tail or middle slice), equal to the
first `n` characters when the text has at least `n` characters and to the
whole text otherwise. -/
theorem truncate_prefix_stable (t : List Char) (n : Nat) :
    (∃ rest, t = truncateText t n ++ rest) ∧
      truncateText t n = if n ≤ t.length then t.take n else t := by
  constructor
  · exact ⟨t.drop n, (List.take_append_drop n t).symm⟩
  · unfold truncateText
    by_cases h : n ≤ t.length
    · rw [if_pos h]
    · rw [if_neg h]
      exact List.take_of_length_le (by omega)

/-- C5: in every endpoint that sends extracted text downstream, the text
embedded into a prompt is truncated to at most 8000 characters when no
chapter filter is supplied and to at most 20000 characters when one is
supplied (the app.py endpoints always cap at 8000, which also satisfies the
20000 bound). -/
theorem truncation_caps (text ch : List Char) :
    (sumSummarizeTextToUse text ch).length ≤ (if ch = [] then 8000 else 20000) ∧
    (sumNotesTextToUse text ch).length ≤ (if ch = [] then 8000 else 20000) ∧
    (sumBothTextForProcessing text ch).length ≤ (if ch = [] then 8000 else 20000) ∧
    (appTextCap text).length ≤ 8000 ∧
    (appTextCap text).length ≤ (if ch = [] then 8000 else 20000) := by
  unfold sumSummarizeTextToUse sumNotesTextToUse sumBothTextForProcessing appTextCap
    truncateText
  have h2 : (text.take 8000).length ≤ 8000 := List.length_take_le _ _
  have h1 : (text.take 20000).length ≤ 20000 := List.length_take_le _ _
  by_cases h : ch = []
  · simp only [h, ne_eq, not_true_eq_false, if_false, if_true]
    exact ⟨h2, h2, h2, h2, h2⟩
  · simp only [h, ne_eq, not_false_eq_true, if_true, if_false]
    exact ⟨h1, h1, h1, h2, by omega⟩

/-- C7 counterexample: when primary extraction yields too little text and
the OCR fallback raises, app.py `extract_text_from_pdf` exits without
deleting its temporary file, so deletion is not guaranteed on every exit
path. -/
theorem pdf_tmpfile_leak :
    (appExtractTextFromPdf (.ok []) (.error (lc "OCR failed"))).tmpDeleted = false := by
  rfl

/-- C7 amended: the temporary file of app.py `extract_text_from_pdf` is
deleted exactly on the normal-return paths; on every exit path where page
reading or the OCR fallback raises, the `os.unlink` at the end of the
function is skipped and the temporary file survives. -/
theorem pdf_tmpfile_deleted_iff_ok (pagesR : Except (List Char) (List (List Char)))
    (ocrR : Except (List Char) (List Char)) :
    (appExtractTextFromPdf pagesR ocrR).tmpDeleted =
      isOkE (appExtractTextFromPdf pagesR ocrR).result := by
  cases pagesR with
  | error e => rfl
  | ok ps =>
    simp only [appExtractTextFromPdf]
    by_cases h : (pyStrip (appConcatPages ps)).length < 200
    · rw [if_pos h]
      cases ocrR <;> rfl
    · rw [if_neg h]
      rfl

/-- C8: for every PDF whose primary extraction yields fewer than 200
characters of concatenated text, the OCR fallback runs exactly once, and
when it returns text `t`, the extraction result is `t` (the primary text is
discarded); feeding that result into the app.py summarize handler sends the
gateway exactly one prompt embedding `t` truncated to 8000 characters. -/
theorem pdf_ocr_fallback (ps : List (List Char)) (ocrR : Except (List Char) (List Char))
    (hlen : (appConcatPages ps).length < 200) :
    (appExtractTextFromPdf (.ok ps) ocrR).ocrCalls = 1 ∧
    ∀ t, ocrR = .ok t →
      (appExtractTextFromPdf (.ok ps) ocrR).result = .ok t ∧
      ∀ (name : List Char) (dx tx : Except (List Char) (List Char))
        (ch : List Char) (wc : Nat) (gw : List Char → List Char),
        List.isSuffixOf (lc ".pdf") (pyLower name) = true →
        appSummarize (some ⟨name, (appExtractTextFromPdf (.ok ps) ocrR).result, dx, tx⟩)
            ch wc gw =
          ⟨⟨200, true, [], [],
              pyStrip (gw (appSummaryPrompt (truncateText t 8000) ch wc)), []⟩,
            [appSummaryPrompt (truncateText t 8000) ch wc]⟩ := by
  have hstrip : (pyStrip (appConcatPages ps)).length < 200 :=
    lt_of_le_of_lt (pyStrip_length_le _) hlen
  have hbase : ∀ t, ocrR = .ok t → appExtractTextFromPdf (.ok ps) ocrR = ⟨.ok t, true, 1⟩ := by
    intro t ht
    subst ht
    simp only [appExtractTextFromPdf]
    rw [if_pos hstrip]
  have hcalls : (appExtractTextFromPdf (.ok ps) ocrR).ocrCalls = 1 := by
    simp only [appExtractTextFromPdf]
    rw [if_pos hstrip]
    cases ocrR <;> rfl
  refine ⟨hcalls, ?_⟩
  intro t ht
  have hb := hbase t ht
  refine ⟨by rw [hb], ?_⟩
  intro name dx tx ch wc gw hsuf
  have hget : appGetTextFromFile
      (some ⟨name, (appExtractTextFromPdf (.ok ps) ocrR).result, dx, tx⟩) = .ok t := by
    unfold appGetTextFromFile
    simp [hsuf, hb]
  simp only [appSummarize, hget]
  rfl

/-- C3: when the stripped gateway response of the combined endpoint is
missing at least one of the three sentinels and does not contain the
chapter-not-found sentence, the request succeeds (status 200,
`success = true`) with the whole response as the summary and empty chapter
title and notes. -/
theorem combined_fallback_success (fileF : Option FileUpload) (ch : List Char)
    (wc : Nat) (gw : List Char → List Char) (t0 : List Char)
    (hex : appGetTextFromFile fileF = .ok t0) (hch : ch ≠ [])
    (hnf : containsSeq (pyStrip (gw (appCombinedPrompt ch wc (appTextCap t0))))
        notFoundSentence = false)
    (hsent : (containsSeq (pyStrip (gw (appCombinedPrompt ch wc (appTextCap t0)))) chapterSep &&
        containsSeq (pyStrip (gw (appCombinedPrompt ch wc (appTextCap t0)))) summarySep &&
        containsSeq (pyStrip (gw (appCombinedPrompt ch wc (appTextCap t0)))) notesSep) = false) :
    appSummarizeAndNotes fileF ch wc gw =
      ⟨⟨200, true, [], [], pyStrip (gw (appCombinedPrompt ch wc (appTextCap t0))), []⟩,
        [appCombinedPrompt ch wc (appTextCap t0)]⟩ := by
  simp only [appSummarizeAndNotes, hex]
  rw [if_neg hch]
  unfold appCombinedRespond
  rw [if_neg (by simp [hnf])]
  unfold appCombinedParse
  rw [if_neg (by simp [hsent])]

/-- C4: whenever the stripped gateway response of the combined endpoint
contains the literal sentence `Chapter not found in the document.`, the
endpoint answers 404 with `success = false`, whatever else the response
contains. -/
theorem combined_not_found_404 (fileF : Option FileUpload) (ch : List Char)
    (wc : Nat) (gw : List Char → List Char) (t0 : List Char)
    (hex : appGetTextFromFile fileF = .ok t0) (hch : ch ≠ [])
    (hnf : containsSeq (pyStrip (gw (appCombinedPrompt ch wc (appTextCap t0))))
        notFoundSentence = true) :
    (appSummarizeAndNotes fileF ch wc gw).resp.status = 404 ∧
      (appSummarizeAndNotes fileF ch wc gw).resp.success = false := by
  simp only [appSummarizeAndNotes, hex]
  rw [if_neg hch]
  unfold appCombinedRespond
  rw [if_pos hnf]
  exact ⟨rfl, rfl⟩

/-- C6 counterexample: uploading a file with the unsupported suffix `.xyz`
to the app.py `/summarize` endpoint yields HTTP 500 (the extraction
exception escapes the handler), not the 400 the claim promises for every
POST endpoint. -/
theorem unsupported_ext_app_500 :
    (appSummarize (some ⟨lc "notes.xyz", .ok [], .ok [], .ok []⟩) [] 300
        (fun _ => [])).resp.status = 500 ∧
      ¬ (appSummarize (some ⟨lc "notes.xyz", .ok [], .ok [], .ok []⟩) [] 300
        (fun _ => [])).resp.status = 400 := by
  constructor
  · rfl
  · decide

/-- C6 amended: for an uploaded file whose lower-cased name ends in none of
`.pdf`, `.docx`, `.txt`, no endpoint makes a gateway call; the three sum.py
endpoints (with the API key configured) answer 400 with error
`Unsupported file format`, while the three app.py endpoints answer 500 with
the raised `Unsupported file type` exception text rather than 400. -/
theorem unsupported_ext_behavior (f : FileUpload) (tf : Option (List Char))
    (ch : List Char) (wc : Nat) (gw : List Char → List Char)
    (h1 : List.isSuffixOf (lc ".pdf") (pyLower f.filename) = false)
    (h2 : List.isSuffixOf (lc ".docx") (pyLower f.filename) = false)
    (h3 : List.isSuffixOf (lc ".txt") (pyLower f.filename) = false) :
    sumSummarize true (some f) tf ch wc gw =
      ⟨⟨400, false, lc "Unsupported file format", [], [], []⟩, []⟩ ∧
    sumCreateNotes true (some f) tf ch gw =
      ⟨⟨400, false, lc "Unsupported file format", [], [], []⟩, []⟩ ∧
    sumSummarizeAndNotes true (some f) tf ch wc gw =
      ⟨⟨400, false, lc "Unsupported file format", [], [], []⟩, []⟩ ∧
    appSummarize (some f) ch wc gw =
      ⟨⟨500, false, lc "Unsupported file type", [], [], []⟩, []⟩ ∧
    appCreateNotes (some f) ch gw =
      ⟨⟨500, false, lc "Unsupported file type", [], [], []⟩, []⟩ ∧
    appSummarizeAndNotes (some f) ch wc gw =
      ⟨⟨500, false, lc "Unsupported file type", [], [], []⟩, []⟩ := by
  have hg : sumGetText (some f) tf =
      .error ⟨400, false, lc "Unsupported file format", [], [], []⟩ := by
    unfold sumGetText
    simp [h1, h2, h3]
  have ha : appGetTextFromFile (some f) = .error (lc "Unsupported file type") := by
    unfold appGetTextFromFile
    simp [h1, h2, h3]
  refine ⟨?_, ?_, ?_, ?_, ?_, ?_⟩
  · simp [sumSummarize, hg]
  · simp [sumCreateNotes, hg]
  · simp [sumSummarizeAndNotes, hg]
  · simp [appSummarize, ha]
  · simp [appCreateNotes, ha]
  · simp [appSummarizeAndNotes, ha]

/-- C9: sum.py TXT extraction first decodes the uploaded bytes as UTF-8; on
decode failure it retries exactly once, decoding the same bytes as Latin-1;
and it fails with the unsupported-encoding message exactly when both decodes
fail. -/
theorem txt_decode_fallback (u l : List Nat → Option (List Char)) (bs : List Nat) :
    (∀ t, u bs = some t → sumExtractTextFromTxt u l bs = (.ok t, 0)) ∧
    (u bs = none → ∀ t, l bs = some t → sumExtractTextFromTxt u l bs = (.ok t, 1)) ∧
    (u bs = none → l bs = none →
      sumExtractTextFromTxt u l bs =
        (.error (lc "Could not decode text file. Unsupported encoding."), 1)) ∧
    (∀ e, (sumExtractTextFromTxt u l bs).1 = .error e →
      u bs = none ∧ l bs = none ∧
        e = lc "Could not decode text file. Unsupported encoding.") := by
  cases hu : u bs with
  | some t =>
    simp only [sumExtractTextFromTxt, hu]
    refine ⟨?_, ?_, ?_, ?_⟩
    · intro t2 h
      injection h with h4
      rw [h4]
    · intro h
      exact absurd h (by simp)
    · intro h
      exact absurd h (by simp)
    · intro e he
      exact Except.noConfusion he
  | none =>
    cases hl : l bs with
    | some t =>
      simp only [sumExtractTextFromTxt, hu, hl]
      refine ⟨?_, ?_, ?_, ?_⟩
      · intro t2 h
        exact absurd h (by simp)
      · intro _ t2 h
        injection h with h4
        rw [h4]
      · intro _ h
        exact absurd h (by simp)
      · intro e he
        exact Except.noConfusion he
    | none =>
      simp only [sumExtractTextFromTxt, hu, hl]
      refine ⟨?_, ?_, ?_, ?_⟩
      · intro t2 h
        exact absurd h (by simp)
      · intro _ t2 h
        exact absurd h (by simp)
      · intro _ _
        trivial
      · intro e he
        injection he with h4
        exact ⟨trivial, trivial, h4.symm⟩

/-- C10: in the two-call variant (sum.py), whenever a file upload is
present the `text` form field is ignored entirely (the handler result does
not depend on it), and when that file additionally has an unsupported
suffix the request fails with 400 instead of falling back to the supplied
text. -/
theorem file_precedence_two_call (apiKey : Bool) (f : FileUpload)
    (tf : Option (List Char)) (ch : List Char) (wc : Nat)
    (gw : List Char → List Char) :
    sumSummarize apiKey (some f) tf ch wc gw = sumSummarize apiKey (some f) none ch wc gw ∧
    sumCreateNotes apiKey (some f) tf ch gw = sumCreateNotes apiKey (some f) none ch gw ∧
    (List.isSuffixOf (lc ".pdf") (pyLower f.filename) = false →
      List.isSuffixOf (lc ".docx") (pyLower f.filename) = false →
      List.isSuffixOf (lc ".txt") (pyLower f.filename) = false →
      apiKey = true →
      (sumSummarize apiKey (some f) tf ch wc gw).resp.status = 400 ∧
        (sumCreateNotes apiKey (some f) tf ch gw).resp.status = 400) := by
  have hg : sumGetText (some f) tf = sumGetText (some f) none := rfl
  refine ⟨?_, ?_, ?_⟩
  · unfold sumSummarize
    rw [hg]
  · unfold sumCreateNotes
    rw [hg]
  · intro h1 h2 h3 hk
    subst hk
    have hge : sumGetText (some f) tf =
        .error ⟨400, false, lc "Unsupported file format", [], [], []⟩ := by
      unfold sumGetText
      simp [h1, h2, h3]
    constructor
    · simp [sumSummarize, hge]
    · simp [sumCreateNotes, hge]

theorem combined_template_roundtrip_witness :
    containsSeq (lc "Intro") chapterSep = false ∧
    containsSeq (lc "A short summary.") summarySep = false ∧
    containsSeq (lc "- first point") notesSep = false ∧
    appCombinedParse (fmtCombined (lc "Intro") (lc "A short summary.") (lc "- first point")) =
      (pyStrip (lc "Intro"), pyStrip (lc "A short summary."), pyStrip (lc "- first point")) :=
  ⟨by decide, by decide, by decide,
    combined_template_roundtrip (lc "Intro") (lc "A short summary.") (lc "- first point")
      (by decide) (by decide) (by decide) (by decide) (by decide) (by decide)
      (by decide) (by decide) (by decide)⟩

theorem pdf_ocr_fallback_witness :
    (appConcatPages []).length < 200 ∧
    (appExtractTextFromPdf (.ok []) (.ok (lc "scanned page"))).ocrCalls = 1 ∧
    (appExtractTextFromPdf (.ok []) (.ok (lc "scanned page"))).result = .ok (lc "scanned page") ∧
    appSummarize
        (some ⟨lc "b.PDF", (appExtractTextFromPdf (.ok []) (.ok (lc "scanned page"))).result,
          .ok [], .ok []⟩) [] 300 (fun _ => lc "ok") =
      ⟨⟨200, true, [], [], pyStrip (lc "ok"), []⟩,
        [appSummaryPrompt (truncateText (lc "scanned page") 8000) [] 300]⟩ :=
  ⟨by decide,
    (pdf_ocr_fallback [] (.ok (lc "scanned page")) (by decide)).1,
    ((pdf_ocr_fallback [] (.ok (lc "scanned page")) (by decide)).2 (lc "scanned page") rfl).1,
    ((pdf_ocr_fallback [] (.ok (lc "scanned page")) (by decide)).2 (lc "scanned page") rfl).2
      (lc "b.PDF") (.ok []) (.ok []) [] 300 (fun _ => lc "ok") (by decide)⟩

theorem combined_fallback_success_witness :
    appGetTextFromFile (some ⟨lc "a.txt", .ok [], .ok [], .ok (lc "hello world")⟩) =
      .ok (lc "hello world") ∧
    lc "One" ≠ [] ∧
    appSummarizeAndNotes (some ⟨lc "a.txt", .ok [], .ok [], .ok (lc "hello world")⟩)
        (lc "One") 300 (fun _ => lc "plain response") =
      ⟨⟨200, true, [], [], pyStrip (lc "plain response"), []⟩,
        [appCombinedPrompt (lc "One") 300 (appTextCap (lc "hello world"))]⟩ :=
  ⟨rfl, by decide,
    combined_fallback_success (some ⟨lc "a.txt", .ok [], .ok [], .ok (lc "hello world")⟩)
      (lc "One") 300 (fun _ => lc "plain response") (lc "hello world")
      rfl (by decide) (by decide) (by decide)⟩

theorem combined_not_found_404_witness :
    containsSeq (pyStrip (lc "Chapter not found in the document.")) notFoundSentence = true ∧
    (appSummarizeAndNotes (some ⟨lc "a.txt", .ok [], .ok [], .ok (lc "hello")⟩)
        (lc "Two") 300 (fun _ => lc "Chapter not found in the document.")).resp.status = 404 ∧
    (appSummarizeAndNotes (some ⟨lc "a.txt", .ok [], .ok [], .ok (lc "hello")⟩)
        (lc "Two") 300 (fun _ => lc "Chapter not found in the document.")).resp.success = false :=
  ⟨by decide,
    (combined_not_found_404 (some ⟨lc "a.txt", .ok [], .ok [], .ok (lc "hello")⟩)
      (lc "Two") 300 (fun _ => lc "Chapter not found in the document.") (lc "hello")
      rfl (by decide) (by decide)).1,
    (combined_not_found_404 (some ⟨lc "a.txt", .ok [], .ok [], .ok (lc "hello")⟩)
      (lc "Two") 300 (fun _ => lc "Chapter not found in the document.") (lc "hello")
      rfl (by decide) (by decide)).2⟩

theorem unsupported_ext_behavior_witness :
    List.isSuffixOf (lc ".pdf") (pyLower (lc "a.xyz")) = false ∧
    List.isSuffixOf (lc ".docx") (pyLower (lc "a.xyz")) = false ∧
    List.isSuffixOf (lc ".txt") (pyLower (lc "a.xyz")) = false ∧
    sumSummarize true (some ⟨lc "a.xyz", .ok [], .ok [], .ok []⟩) (some (lc "body"))
        [] 300 (fun _ => []) =
      ⟨⟨400, false, lc "Unsupported file format", [], [], []⟩, []⟩ ∧
    appSummarizeAndNotes (some ⟨lc "a.xyz", .ok [], .ok [], .ok []⟩) [] 300 (fun _ => []) =
      ⟨⟨500, false, lc "Unsupported file type", [], [], []⟩, []⟩ :=
  ⟨by decide, by decide, by decide,
    (unsupported_ext_behavior ⟨lc "a.xyz", .ok [], .ok [], .ok []⟩ (some (lc "body"))
      [] 300 (fun _ => []) (by decide) (by decide) (by decide)).1,
    (unsupported_ext_behavior ⟨lc "a.xyz", .ok [], .ok [], .ok []⟩ (some (lc "body"))
      [] 300 (fun _ => []) (by decide) (by decide) (by decide)).2.2.2.2.2⟩

theorem txt_decode_fallback_witness :
    (fun _ : List Nat => (none : Option (List Char))) [104, 105] = none ∧
    (fun _ : List Nat => some (lc "hi")) [104, 105] = some (lc "hi") ∧
    sumExtractTextFromTxt (fun _ => none) (fun _ => some (lc "hi")) [104, 105] =
      (.ok (lc "hi"), 1) :=
  ⟨rfl, rfl,
    (txt_decode_fallback (fun _ => none) (fun _ => some (lc "hi")) [104, 105]).2.1
      rfl (lc "hi") rfl⟩

theorem file_precedence_two_call_witness :
    sumSummarize true (some ⟨lc "a.xyz", .ok [], .ok [], .ok []⟩) (some (lc "fallback text"))
        [] 300 (fun _ => []) =
      sumSummarize true (some ⟨lc "a.xyz", .ok [], .ok [], .ok []⟩) none [] 300 (fun _ => []) ∧
    sumCreateNotes true (some ⟨lc "a.xyz", .ok [], .ok [], .ok []⟩) (some (lc "fallback text"))
        [] (fun _ => []) =
      sumCreateNotes true (some ⟨lc "a.xyz", .ok [], .ok [], .ok []⟩) none [] (fun _ => []) ∧
    (sumSummarize true (some ⟨lc "a.xyz", .ok [], .ok [], .ok []⟩) (some (lc "fallback text"))
        [] 300 (fun _ => [])).resp.status = 400 ∧
    (sumCreateNotes true (some ⟨lc "a.xyz", .ok [], .ok [], .ok []⟩) (some (lc "fallback text"))
        [] (fun _ => [])).resp.status = 400 :=
  ⟨(file_precedence_two_call true ⟨lc "a.xyz", .ok [], .ok [], .ok []⟩
      (some (lc "fallback text")) [] 300 (fun _ => [])).1,
    (file_precedence_two_call true ⟨lc "a.xyz", .ok [], .ok [], .ok []⟩
      (some (lc "fallback text")) [] 300 (fun _ => [])).2.1,
    ((file_precedence_two_call true ⟨lc "a.xyz", .ok [], .ok [], .ok []⟩
      (some (lc "fallback text")) [] 300 (fun _ => [])).2.2
      (by decide) (by decide) (by decide) rfl).1,
    ((file_precedence_two_call true ⟨lc "a.xyz", .ok [], .ok [], .ok []⟩
      (some (lc "fallback text")) [] 300 (fun _ => [])).2.2
      (by decide) (by decide) (by decide) rfl).2⟩

end Summ
